import Mathlib

/-!
Verification development for the MCP gateway repository.

The repository contains two small servers:

* `first_try_mcp` — four API-backed tools (weather, IP info, dictionary,
  exchange rate) built on a shared `HTTPClient` (httpx + tenacity) and a
  `BaseTool` invocation contract;
* `prometheus_grafana_fake_data` — mock monitoring-data tools built on a
  YAML `DataLoader` with a load-once cache.

This file shallowly embeds the relevant Python code.  JSON/YAML values are
modelled by the inductive `Jv` (numbers as exact rationals), Python dict
operations by association-list lookups, exceptions by `Except`, and the
scripted HTTP transport by a function from the attempt index to an outcome.
-/

namespace McpGateway

/-- JSON / YAML value, as produced by `response.json()` or `yaml.safe_load`.
Python numbers are modelled as exact rationals; objects keep insertion
order, as Python dicts do. -/
inductive Jv where
  | null
  | bool (b : Bool)
  | num (q : Rat)
  | str (s : String)
  | arr (xs : List Jv)
  | obj (fields : List (String × Jv))
deriving Repr, Inhabited

/-- First-match lookup in an object field list (Python dict lookup). -/
def jvLookup (fields : List (String × Jv)) (k : String) : Option Jv :=
  match fields with
  | [] => none
  | (k', v) :: rest => if k' = k then some v else jvLookup rest k

/-- Python truthiness (`bool(x)`) on JSON values. -/
def jvTruthy : Jv → Bool
  | .null => false
  | .bool b => b
  | .num q => q ≠ 0
  | .str s => s ≠ ""
  | .arr xs => ¬ xs.isEmpty
  | .obj fields => ¬ fields.isEmpty

/-- Python `x == "lit"` where `x` is an arbitrary JSON value: only a string
with the same characters compares equal to a string literal. -/
def jvEqStr (v : Jv) (s : String) : Bool :=
  match v with
  | .str t => t = s
  | _ => false

namespace HTTPClient

/-! ### `src/utils/http_client.py`, `HTTPClient.get`

The transport (`self._client.get` followed by `response.raise_for_status()`
and `response.json()`) is scripted as a function from the 0-based attempt
index to an `Outcome`.  The `get` method body translates each outcome into
either a parsed JSON document or a raised exception, exactly as the chain
of `except` clauses does; the surrounding tenacity decorator
(`stop_after_attempt(3)`,
`retry_if_exception_type((httpx.TimeoutException, httpx.NetworkError))`,
`reraise=True`) is the explicit loop `retryLoop`. -/

/-- One transport attempt: the underlying `httpx` call either raises a
timeout, raises a network error (with message `emsg`), or yields a response
with a status code, a body text and a JSON-parse result. -/
inductive Outcome where
  | raiseTimeout
  | raiseNetworkError (emsg : String)
  | response (status : Nat) (text : String) (parsed : Except String Jv)

/-- Python exception classes that can travel through the tenacity wrapper.
The `httpx` variants are the ones the decorator's
`retry_if_exception_type` predicate matches; `mcpTimeoutError` and
`apiError` are the repository's own `TimeoutError` / `APIError`
(carrying message, optional status code and optional response text). -/
inductive PyExc where
  | httpxTimeoutException (msg : String)
  | httpxNetworkError (msg : String)
  | mcpTimeoutError (msg : String)
  | apiError (msg : String) (statusCode : Option Nat) (responseText : Option String)
  | runtimeError (msg : String)
deriving Repr, DecidableEq

/-- `retry_if_exception_type((httpx.TimeoutException, httpx.NetworkError))`:
an isinstance check against the two httpx classes. -/
def retryIfExceptionType : PyExc → Bool
  | .httpxTimeoutException _ => true
  | .httpxNetworkError _ => true
  | _ => false

/-- httpx `response.is_success`: status in the 2xx range
(`raise_for_status` raises `HTTPStatusError` for every other status). -/
def is2xx (status : Nat) : Bool := 200 ≤ status && status ≤ 299

/-- The body of `HTTPClient.get` for one transport outcome: the `try`
block plus its `except` clauses.  Note that `httpx.TimeoutException` is
re-raised as the repository's `TimeoutError` and `httpx.NetworkError`
(a `RequestError`) as `APIError`, so the exception leaving the body is
never of an httpx class. -/
def getBody (url : String) (o : Outcome) : Except PyExc Jv :=
  match o with
  | .raiseTimeout =>
      .error (.mcpTimeoutError ("Request to " ++ url ++ " timed out"))
  | .raiseNetworkError emsg =>
      .error (.apiError ("Request failed for " ++ url ++ ": " ++ emsg) none none)
  | .response status text parsed =>
      if is2xx status then
        match parsed with
        | .ok j => .ok j
        | .error emsg =>
            .error (.apiError ("Unexpected error for " ++ url ++ ": " ++ emsg) none none)
      else
        .error (.apiError ("HTTP " ++ toString status ++ " error for " ++ url)
          (some status) (some text))

/-- The tenacity loop.  `attempt` is the 0-based attempt index, `fuel` the
number of further attempts the hard-coded `stop_after_attempt(3)` still
allows.  After an exception the wrapper retries only when
`retryIfExceptionType` matches and attempts remain; with `reraise := True`
it otherwise re-raises the last exception.  The second component counts
transport invocations. -/
def retryLoop (url : String) (transport : Nat → Outcome) :
    Nat → Nat → Except PyExc Jv × Nat
  | attempt, fuel =>
    match getBody url (transport attempt) with
    | .ok j => (.ok j, attempt + 1)
    | .error e =>
      if retryIfExceptionType e then
        match fuel with
        | 0 => (.error e, attempt + 1)
        | fuel' + 1 => retryLoop url transport (attempt + 1) fuel'
      else (.error e, attempt + 1)

/-- `HTTPClient.get`: raises `RuntimeError` when used outside the context
manager (before any transport call), otherwise runs the decorated body
with at most 3 attempts (`stop_after_attempt(3)`; the constructor's
`max_retries` is stored but not consulted by the decorator). -/
def get (clientReady : Bool) (url : String) (transport : Nat → Outcome) :
    Except PyExc Jv × Nat :=
  if clientReady then retryLoop url transport 0 2
  else (.error (.runtimeError "HTTPClient must be used as a context manager"), 0)

end HTTPClient

/-- Is the value a mapping (Python dict)? -/
def Jv.isObj : Jv → Bool
  | .obj _ => true
  | _ => false

/-- Exception taxonomy of `prometheus_grafana_fake_data/src/utils/exceptions.py`:
`DataLoadError`, `TimeRangeError` and `FilterError` (the latter two are
subclasses of `ValidationError`), and `ToolExecutionError`, which records
the chained `from e` cause when one exists. -/
inductive MonErr where
  | dataLoad (msg : String)
  | timeRange (msg : String)
  | filterErr (msg : String)
  | toolExec (msg : String) (cause : Option MonErr)

/-- isinstance(e, ValidationError) for the mock server's taxonomy:
`TimeRangeError` and `FilterError` are the `ValidationError` subtypes. -/
def MonErr.isValidationError : MonErr → Bool
  | .timeRange _ => true
  | .filterErr _ => true
  | _ => false

/-- The message of a mock-server exception (`str(e)`). -/
def MonErr.message : MonErr → String
  | .dataLoad m => m
  | .timeRange m => m
  | .filterErr m => m
  | .toolExec m _ => m

namespace DataLoader

/-! ### `prometheus_grafana_fake_data/src/data_loader/loader.py` -/

/-- Filesystem oracle: for a filepath (relative to the loader's base path),
`none` means the file does not exist, `some (.error msg)` a
`yaml.YAMLError` raised while parsing, `some (.ok d)` the parsed document.
The fixture files are static, so the oracle is fixed across operations. -/
abbrev FS := String → Option (Except String Jv)

/-- `DataLoader` state: the base path and the `_cache` dict. -/
structure LoaderState where
  base_path : String
  cache : List (String × Jv)

/-- Python dict assignment `d[k] = v`: replaces the existing binding for
`k` in place or appends a new one. -/
def listInsert (fields : List (String × Jv)) (k : String) (v : Jv) :
    List (String × Jv) :=
  match fields with
  | [] => [(k, v)]
  | (k', v') :: rest =>
      if k' = k then (k, v) :: rest else (k', v') :: listInsert rest k v

/-- `data or {}`: a falsy parse result (None, false, 0, empty string or
empty collection) is replaced by the empty dict. -/
def pyOrEmpty (d : Jv) : Jv := if jvTruthy d then d else .obj []

/-- `DataLoader.load_yaml`: serve a cache hit when `use_cache` is set,
otherwise read and parse the file, cache `data or {}` under the filepath
and return the cached value.  Missing files and YAML errors raise
`DataLoadError` and leave the cache untouched. -/
def load_yaml (fs : FS) (filepath : String) (use_cache : Bool)
    (st : LoaderState) : Except MonErr Jv × LoaderState :=
  match use_cache, jvLookup st.cache filepath with
  | true, some v => (.ok v, st)
  | _, _ =>
    match fs filepath with
    | none =>
        (.error (.dataLoad ("File not found: " ++ st.base_path ++ "/" ++ filepath)), st)
    | some (.error emsg) =>
        (.error (.dataLoad
          ("Failed to parse YAML file " ++ filepath ++ ": " ++ emsg)), st)
    | some (.ok d) =>
        let v := pyOrEmpty d
        (.ok v, { st with cache := listInsert st.cache filepath v })

/-- The cache-mutating surface of `DataLoader`.  The named helpers
(`load_interface_logs`, `load_server_metrics`, …) are `load_yaml` applied
to a fixed path with `use_cache = true`, and `get_cache_stats` only reads
the cache. -/
inductive LoaderOp where
  | loadYaml (filepath : String) (use_cache : Bool)
  | clearCache
  | getCacheStats
deriving DecidableEq

/-- State transition of one `DataLoader` operation. -/
def step (fs : FS) (op : LoaderOp) (st : LoaderState) : LoaderState :=
  match op with
  | .loadYaml fp uc => (load_yaml fs fp uc st).2
  | .clearCache => { st with cache := [] }
  | .getCacheStats => st

/-- Run a sequence of operations. -/
def run (fs : FS) (st : LoaderState) : List LoaderOp → LoaderState
  | [] => st
  | op :: ops => run fs (step fs op st) ops

/-- Every cache entry is the normalized parse of the (fixed) file it was
loaded from. -/
def Consistent (fs : FS) (st : LoaderState) : Prop :=
  ∀ k v, jvLookup st.cache k = some v →
    ∃ d, fs k = some (.ok d) ∧ v = pyOrEmpty d

/-- A small concrete fixture store used to instantiate the loader
theorems: a normal mapping document, a top-level list document and an
empty document. -/
def demoFS : FS := fun fp =>
  if fp = "logs/interface_logs.yaml" then
    some (.ok (.obj [("interface_logs", .arr [])]))
  else if fp = "logs/list.yaml" then
    some (.ok (.arr [.str "x"]))
  else if fp = "empty.yaml" then
    some (.ok .null)
  else none

end DataLoader

/-! ### `first_try_mcp`: error taxonomy, tool contract and validators -/

/-- Exception taxonomy of `first_try_mcp/src/utils/exceptions.py`,
restricted to the kinds the embedded code paths construct:
`ValidationError` and `ToolExecutionError` (both carry a message). -/
inductive MCPErr where
  | validation (msg : String)
  | toolExecution (msg : String)
deriving Repr, DecidableEq

/-- isinstance(e, ValidationError). -/
def MCPErr.isValidationError : MCPErr → Bool
  | .validation _ => true
  | _ => false

/-- A Python scalar argument as received through `**kwargs`
(`None`, bool, int, float or str); an absent keyword is `kwargs.get`'s
`None`. -/
inductive PyVal where
  | none
  | bool (b : Bool)
  | int (n : Int)
  | float (q : Rat)
  | str (s : String)
deriving Repr, DecidableEq

/-- Python truthiness of an argument value. -/
def PyVal.truthy : PyVal → Bool
  | .none => false
  | .bool b => b
  | .int n => n ≠ 0
  | .float q => q ≠ 0
  | .str s => s ≠ ""

/-- `isinstance(x, str)`. -/
def PyVal.isStr : PyVal → Bool
  | .str _ => true
  | _ => false

/-- `isinstance(x, (int, float))` — Python bools are ints. -/
def PyVal.isNumber : PyVal → Bool
  | .int _ => true
  | .float _ => true
  | .bool _ => true
  | _ => false

/-- Numeric value of an int/float/bool argument. -/
def PyVal.toRat : PyVal → Rat
  | .int n => (n : Rat)
  | .float q => q
  | .bool b => if b then 1 else 0
  | _ => 0

/-- Python `str.isalpha` (ASCII fragment): non-empty and all letters. -/
def pyIsAlpha (s : String) : Bool := ¬ s.isEmpty && s.toList.all Char.isAlpha

/-- The apostrophe character, written by code point. -/
def apos : String := String.singleton (Char.ofNat 39)

/-- Python `str.upper()` (ASCII fragment): character-wise upper-casing. -/
def pyUpper (s : String) : String := String.mk (s.data.map Char.toUpper)

/-- Python `str.strip()`: drop whitespace from both ends. -/
def pyStrip (s : String) : String :=
  String.mk
    (((s.data.dropWhile Char.isWhitespace).reverse.dropWhile
      Char.isWhitespace).reverse)

/-- Python `s.replace(c, "")` for a single-character pattern: remove every
occurrence of the character. -/
def pyRemoveChar (s : String) (c : Char) : String :=
  String.mk (s.data.filter fun x => x ≠ c)

/-- Substring containment on character lists (Python `needle in hay`). -/
def substrContains (hay needle : List Char) : Bool :=
  match hay with
  | [] => needle.isEmpty
  | _ :: rest => needle.isPrefixOf hay || substrContains rest needle

namespace BaseTool

/-- `BaseTool.__call__` (`src/tools/base.py`): logs, runs `validate_input`,
then `execute`, and re-raises any exception unchanged after logging.
Every `raise` site in every tool's `validate_input` constructs
`ValidationError`, so a validator is modelled as the optional message of
the `ValidationError` it raises.  `execute` is any function returning a
result (or raised error) together with the number of network/data-layer
invocations it performed; the second component of `call`'s result is that
count, `0` when `execute` was never entered. -/
def call {α : Type} (validate_input : α → Option String)
    (execute : α → Except MCPErr Jv × Nat) (kwargs : α) :
    Except MCPErr Jv × Nat :=
  match validate_input kwargs with
  | some msg => (.error (.validation msg), 0)
  | none => execute kwargs

end BaseTool

namespace IPInfoTool

/-! ### `src/tools/ip_info.py` -/

/-- Split a character list at every occurrence of `sep`
(Python `str.split(sep)`). -/
def splitOnChar (sep : Char) : List Char → List (List Char)
  | [] => [[]]
  | c :: rest =>
    let r := splitOnChar sep rest
    if c = sep then [] :: r
    else
      match r with
      | [] => [[c]]
      | p :: ps => (c :: p) :: ps

/-- Python `int()` of a string of ASCII digits. -/
def digitsToNat (cs : List Char) : Nat :=
  cs.foldl (fun acc c => acc * 10 + (c.toNat - 48)) 0

/-- ASCII hex digit (the character class of the IPv6 pattern). -/
def isHexChar (c : Char) : Bool :=
  c.isDigit || (97 ≤ c.toNat && c.toNat ≤ 102) || (65 ≤ c.toNat && c.toNat ≤ 70)

/-- The anchored regex `(\d{1,3}\.){3}\d{1,3}` viewed through the split:
exactly four groups of one to three ASCII digits. -/
def matchesIpv4Pattern (cs : List Char) : Bool :=
  let parts := splitOnChar (Char.ofNat 46) cs
  parts.length = 4 &&
    parts.all fun p => 1 ≤ p.length && p.length ≤ 3 && p.all Char.isDigit

/-- The anchored regex `([0-9a-fA-F]\x7b0,4\x7d:)\x7b7\x7d[0-9a-fA-F]\x7b0,4\x7d`:
exactly eight colon-separated groups of at most four hex digits. -/
def matchesIpv6Pattern (cs : List Char) : Bool :=
  let parts := splitOnChar (Char.ofNat 58) cs
  parts.length = 8 && parts.all fun p => p.length ≤ 4 && p.all isHexChar

/-- `IPInfoTool._is_valid_ip`: IPv4 dotted-quad with every octet in
0..255, or the simplified IPv6 pattern. -/
def is_valid_ip (s : String) : Bool :=
  let cs := s.toList
  if matchesIpv4Pattern cs then
    (splitOnChar (Char.ofNat 46) cs).all fun octet =>
      decide (digitsToNat octet ≤ 255)
  else if matchesIpv6Pattern cs then true
  else false

/-- `IPInfoTool.validate_input`: no/empty `ip_address` is accepted (the
upstream resolves the caller's IP); otherwise the value must be a string
in a valid IP format. -/
def validate_input (ip_address : PyVal) : Option String :=
  match ip_address with
  | .none => none
  | .str s =>
      if s = "" then none
      else if ¬ is_valid_ip (pyStrip s) then
        some ("Invalid IP address format: " ++ s)
      else none
  | _ => some "ip_address must be a string"

end IPInfoTool

namespace WeatherTool

/-- `WeatherTool.validate_input` (`src/tools/weather.py`): `location` is
required, must be a string, and must not be blank. -/
def validate_input (location : PyVal) : Option String :=
  if ¬ location.truthy then some "location parameter is required"
  else
    match location with
    | .str s =>
        if (pyStrip s).length = 0 then some "location cannot be empty" else none
    | _ => some "location must be a string"

end WeatherTool

namespace DictionaryTool

/-- `DictionaryTool.validate_input` (`src/tools/dictionary.py`): `word` is
required, must be a string, non-blank after trimming, and alphabetic after
stripping hyphens and apostrophes. -/
def validate_input (word : PyVal) : Option String :=
  if ¬ word.truthy then some "word parameter is required"
  else
    match word with
    | .str s =>
        if (pyStrip s).length = 0 then some "word cannot be empty"
        else if ¬ pyIsAlpha (pyRemoveChar (pyRemoveChar s (Char.ofNat 45)) (Char.ofNat 39)) then
          some "word must contain only letters, hyphens, or apostrophes"
        else none
    | _ => some "word must be a string"

end DictionaryTool

namespace ExchangeRateTool

/-- The `amount` checks of `ExchangeRateTool.validate_input`: optional,
but when present must be a number (int/float) and positive. -/
def check_amount (amount : PyVal) : Option String :=
  match amount with
  | .none => none
  | a =>
      if ¬ a.isNumber then some "amount must be a number"
      else if a.toRat ≤ 0 then some "amount must be positive"
      else none

/-- `ExchangeRateTool.validate_input` (`src/tools/exchange_rate.py`):
`base_currency` required, a 3-letter alphabetic string; optional
`target_currency` with the same constraint; optional positive numeric
`amount`. -/
def validate_input (base_currency target_currency amount : PyVal) :
    Option String :=
  if ¬ base_currency.truthy then some "base_currency parameter is required"
  else
    match base_currency with
    | .str s =>
        if s.length ≠ 3 then some "base_currency must be a 3-letter currency code"
        else if ¬ pyIsAlpha s then some "base_currency must contain only letters"
        else
          match target_currency with
          | .none => check_amount amount
          | .str t =>
              if t.length ≠ 3 then
                some "target_currency must be a 3-letter currency code"
              else if ¬ pyIsAlpha t then
                some "target_currency must contain only letters"
              else check_amount amount
          | _ => some "target_currency must be a string"
    | _ => some "base_currency must be a string"

end ExchangeRateTool

/-! ### Python dynamic operations on JSON values

Fallible Python operations return `Except String`, the `String` being the
raised built-in exception rendered as text (`str(e)`); the exact wording
of built-in exception messages is abbreviated, the repository's own
exception messages are reproduced verbatim. -/

/-- `x.get(k, default)`: `AttributeError` unless `x` is a dict; a present
key returns its value (even `None`), an absent key the default. -/
def pyGetD (v : Jv) (k : String) (default : Jv) : Except String Jv :=
  match v with
  | .obj fields => .ok ((jvLookup fields k).getD default)
  | _ => .error ("AttributeError: get on non-dict (key " ++ k ++ ")")

/-- `x.get(k)`: default `None`. -/
def pyGet (v : Jv) (k : String) : Except String Jv := pyGetD v k .null

/-- Python `a or b`. -/
def jvOr (a b : Jv) : Jv := if jvTruthy a then a else b

/-- `for x in v`: dicts iterate over their keys, strings over their
characters; scalars raise `TypeError`. -/
def pyIter (v : Jv) : Except String (List Jv) :=
  match v with
  | .arr xs => .ok xs
  | .str s => .ok (s.toList.map fun c => .str (String.singleton c))
  | .obj fields => .ok (fields.map fun kv => .str kv.1)
  | _ => .error "TypeError: object is not iterable"

/-- `v[0]`. -/
def pySubscript0 (v : Jv) : Except String Jv :=
  match v with
  | .arr (x :: _) => .ok x
  | .arr [] => .error "IndexError: list index out of range"
  | .str s =>
      match s.toList with
      | c :: _ => .ok (.str (String.singleton c))
      | [] => .error "IndexError: string index out of range"
  | .obj _ => .error "KeyError: 0"
  | _ => .error "TypeError: object is not subscriptable"

/-- `list(v.keys())`. -/
def pyKeys (v : Jv) : Except String (List String) :=
  match v with
  | .obj fields => .ok (fields.map Prod.fst)
  | _ => .error "AttributeError: keys on non-dict"

/-- `k in v` for a string `k`. -/
def pyContainsStr (k : String) (v : Jv) : Except String Bool :=
  match v with
  | .obj fields => .ok (jvLookup fields k).isSome
  | .arr xs => .ok (xs.any fun x => jvEqStr x k)
  | .str s => .ok (substrContains s.data k.data)
  | _ => .error "TypeError: argument is not a container"

/-- `v[k]` for a string key. -/
def pySubscriptKey (v : Jv) (k : String) : Except String Jv :=
  match v with
  | .obj fields =>
      match jvLookup fields k with
      | some r => .ok r
      | none => .error ("KeyError: " ++ k)
  | _ => .error "TypeError: object is not subscriptable"

/-- `q * v` for a Python number `q` and an arbitrary value `v`
(bools are numeric in Python). -/
def pyMulNum (q : Rat) (v : Jv) : Except String Rat :=
  match v with
  | .num r => .ok (q * r)
  | .bool b => .ok (q * (if b then 1 else 0))
  | _ => .error "TypeError: unsupported operand type for *"

/-- Python `str(v)`.  Integer-valued numbers render exactly; the float
repr of non-integer numbers and the rendering of nested containers are
abbreviated (no embedded claim depends on those strings). -/
def pyStr : Jv → String
  | .null => "None"
  | .bool b => if b then "True" else "False"
  | .num q => if q.den = 1 then toString q.num
              else toString q.num ++ "/" ++ toString q.den
  | .str s => s
  | .arr _ => "[...]"
  | .obj _ => "\x7b...\x7d"

namespace InterfaceLogsTool

/-! ### `prometheus_grafana_fake_data/src/tools/interface_logs.py`

`execute` returns `json.dumps(response, indent=2)`; the embedding returns
the `response` structure itself (the dump is an injective rendering
applied at the boundary).  The result's second component counts
`data_loader` invocations. -/

/-- One row of the SQL-style result, built from one fixture record
(field order and `.get` defaults as in the source dict literal). -/
def rowOfLog (log : Jv) : Except String Jv := do
  let logId ← pyGetD log "id" (.str "unknown")
  let createdAt ← pyGet log "created_at"
  let startedAt ← pyGet log "started_at"
  let systemName ← pyGetD log "system_name" (.str "unknown")
  let interfaceName ← pyGetD log "interface_name" (.str "unknown")
  let direction ← pyGetD log "direction" (.str "OUTBOUND")
  let status ← pyGetD log "status" (.str "UNKNOWN")
  let protocol ← pyGetD log "protocol" (.str "REST")
  let sourceSystem ← pyGetD log "source_system" (.str "unknown")
  let targetSystem ← pyGetD log "target_system" (.str "unknown")
  let recordCount ← pyGetD log "record_count" (.num 0)
  let bytesTransferred ← pyGetD log "bytes_transferred" (.num 0)
  let durationSeconds ← pyGetD log "duration_seconds" (.num 0)
  let retryCount ← pyGetD log "retry_count" (.num 0)
  let errorMessage ← pyGet log "error_message"
  let correlationId ← pyGet log "correlation_id"
  let traceId ← pyGet log "trace_id"
  pure (.obj [("log_id", logId),
    ("timestamp", jvOr createdAt startedAt),
    ("system_name", systemName),
    ("interface_name", interfaceName),
    ("direction", direction),
    ("status", status),
    ("protocol", protocol),
    ("source_system", sourceSystem),
    ("target_system", targetSystem),
    ("record_count", recordCount),
    ("bytes_transferred", bytesTransferred),
    ("duration_seconds", durationSeconds),
    ("retry_count", retryCount),
    ("error_message", errorMessage),
    ("correlation_id", correlationId),
    ("trace_id", traceId)])

/-- The `for log in filtered_logs: rows.append(row)` loop. -/
def rowsOfLogs : List Jv → Except String (List Jv)
  | [] => .ok []
  | log :: rest => do
      let row ← rowOfLog log
      let rows ← rowsOfLogs rest
      pure (row :: rows)

/-- The SQL-result envelope. -/
def responseOfRows (rows : List Jv) : Jv :=
  .obj [("query", .str "SELECT * FROM interface_logs ORDER BY timestamp DESC"),
    ("rowCount", .num (rows.length : Rat)),
    ("rows", .arr rows)]

/-- `InterfaceLogsTool.execute`: negative `hours` raises `TimeRangeError`
(re-raised unchanged by its `except TimeRangeError: raise`); the
`system_name`, `status` and non-negative `hours` parameters do not affect
the output ("Always return all logs regardless of filters").  `load` is
the outcome of `data_loader.load_interface_logs()`; any non-validation
exception is wrapped into `ToolExecutionError` with its cause chained. -/
def execute (system_name : String) (hours : Int) (status : Option String)
    (load : Except MonErr Jv) : Except MonErr Jv × Nat :=
  if hours < 0 then
    (.error (.timeRange "Hours must be non-negative"), 0)
  else
    match load with
    | .error e =>
        (.error (.toolExec ("Failed to check interface logs: " ++ e.message)
          (some e)), 1)
    | .ok data =>
        match (do
          let logs ← pyGetD data "interface_logs" (.arr [])
          let logList ← pyIter logs
          let rows ← rowsOfLogs logList
          pure (responseOfRows rows) : Except String Jv) with
        | .ok resp => (.ok resp, 1)
        | .error emsg =>
            (.error (.toolExec ("Failed to check interface logs: " ++ emsg)
              none), 1)

end InterfaceLogsTool

namespace ApplicationLogsTool

/-! ### `prometheus_grafana_fake_data/src/tools/application_logs.py`

Sources of nondeterminism are passed as an explicit environment: `today`
(`datetime.now.strftime`), the per-record `datetime.now.isoformat`, the
process hash function, and the stream of `uuid.uuid4()` draws (record `i`
consumes draws `4*i .. 4*i+3`, in the evaluation order of the hit
literal: `_id`, the `instance` default, the `trace_id` default, the
`span_id` default — `dict.get` evaluates its default eagerly). -/

/-- Nondeterministic inputs of one `execute` call. -/
structure Env where
  today : String
  nowIso : Nat → String
  hashv : Jv → Int
  uuidStr : Nat → String
  uuidHex : Nat → String

/-- The default stack trace rendered for an ERROR record. -/
def stackTraceDefault (m : Jv) : String :=
  "java.lang.Exception: " ++ pyStr m ++
  "\n\tat com.company.service.Handler.process(Handler.java:123)" ++
  "\n\tat com.company.service.Controller.handle(Controller.java:45)"

/-- One Elasticsearch hit built from one fixture record. -/
def buildHit (env : Env) (i : Nat) (log : Jv) : Except String Jv := do
  let exception ← pyGetD log "exception" (.obj [])
  let context ← pyGetD log "context" (.obj [])
  let timestamp ← pyGetD log "timestamp" (.str (env.nowIso i))
  let level ← pyGetD log "level" (.str "INFO")
  let serviceForLogger ← pyGetD log "service" (.str "unknown")
  let loggerName ← pyGetD log "logger"
      (.str ("com.company." ++ pyStr serviceForLogger ++ ".Service"))
  let message ← pyGetD log "message" (.str "")
  let msgForHash ← pyGetD log "message" (.str "")
  let threadName ← pyGetD log "thread"
      (.str ("http-nio-8080-exec-" ++ toString (Int.emod (env.hashv msgForHash) 50)))
  let service ← pyGetD log "service" (.str "unknown")
  let serviceForInstance ← pyGetD log "service" (.str "unknown")
  let inst ← pyGetD log "instance"
      (.str (pyStr serviceForInstance ++ "-" ++ (env.uuidHex (4 * i + 1)).take 8))
  let namespc ← pyGetD log "namespace" (.str "production")
  let version ← pyGetD log "version" (.str "unknown")
  let traceId ← pyGetD log "trace_id" (.str (env.uuidHex (4 * i + 2)))
  let spanId ← pyGetD log "span_id" (.str ((env.uuidHex (4 * i + 3)).take 16))
  let parentSpanId ← pyGet log "parent_span_id"
  let requestId ← pyGet log "request_id"
  let levelRaw ← pyGet log "level"
  let extras1 : List (String × Jv) ←
    if jvEqStr levelRaw "ERROR" && jvTruthy exception then do
      let excClass ← pyGetD exception "class" (.str "java.lang.Exception")
      let msgD ← pyGetD log "message" (.str "Unknown error")
      let excMsg ← pyGetD exception "message" msgD
      let msgD2 ← pyGetD log "message" (.str "Unknown error")
      let stackTrace ← pyGetD exception "stacktrace" (.str (stackTraceDefault msgD2))
      pure [("exception_class", excClass), ("exception_message", excMsg),
        ("stack_trace", stackTrace)]
    else if jvEqStr levelRaw "ERROR" then do
      let msgD2 ← pyGetD log "message" (.str "Unknown error")
      pure [("stack_trace", (.str (stackTraceDefault msgD2) : Jv))]
    else pure []
  let extras2 : List (String × Jv) ←
    if jvTruthy context then do
      let txn ← pyGet context "transaction_id"
      let cust ← pyGet context "customer_id"
      pure ([("context", context)] ++
        (if jvTruthy txn then [("transaction_id", txn)] else []) ++
        (if jvTruthy cust then [("customer_id", cust)] else []))
    else pure []
  let uid ← pyGet log "user_id"
  let extras3 : List (String × Jv) :=
    if jvTruthy uid then [("user_id", uid)] else []
  pure (.obj [("_index", .str ("app-logs-" ++ env.today)),
    ("_id", .str ((env.uuidStr (4 * i)).take 12)),
    ("_score", .null),
    ("_source", .obj ([("@timestamp", timestamp), ("level", level),
      ("logger_name", loggerName), ("message", message),
      ("thread_name", threadName), ("service", service),
      ("instance", inst), ("namespace", namespc), ("version", version),
      ("trace_id", traceId), ("span_id", spanId),
      ("parent_span_id", parentSpanId), ("request_id", requestId)] ++
      extras1 ++ extras2 ++ extras3))])

/-- The `for log in filtered_logs: hits.append(hit)` loop; `i` is the
index of the first record of the remaining list. -/
def hitsOfLogs (env : Env) : Nat → List Jv → Except String (List Jv)
  | _, [] => .ok []
  | i, log :: rest => do
      let hit ← buildHit env i log
      let hits ← hitsOfLogs env (i + 1) rest
      pure (hit :: hits)

/-- The allowed `level` values. -/
def validLevels : List String := ["DEBUG", "INFO", "WARN", "ERROR"]

/-- Python `str(valid_levels)` as interpolated into the FilterError
message. -/
def validLevelsStr : String :=
  "[" ++ apos ++ "DEBUG" ++ apos ++ ", " ++ apos ++ "INFO" ++ apos ++
  ", " ++ apos ++ "WARN" ++ apos ++ ", " ++ apos ++ "ERROR" ++ apos ++ "]"

/-- The Elasticsearch response envelope. -/
def responseOfHits (hits : List Jv) : Jv :=
  .obj [("took", .num 5), ("timed_out", .bool false),
    ("_shards", .obj [("total", .num 5), ("successful", .num 5),
      ("skipped", .num 0), ("failed", .num 0)]),
    ("hits", .obj [("total", .obj [("value", .num (hits.length : Rat)),
      ("relation", .str "eq")]),
      ("max_score", .null), ("hits", .arr hits)])]

/-- `ApplicationLogsTool.execute`: validates `minutes` (`TimeRangeError`)
and `level` (`FilterError`), but its
`except (TimeRangeError, FilterError)` clause wraps both into
`ToolExecutionError("Input validation failed: ...")` with the validation
error as chained cause; the `service`, `search_pattern` and valid
`minutes`/`level` values never affect the output ("Always return all logs
regardless of filters").  Returns the structure that `json.dumps`
serializes, with the count of `data_loader` invocations. -/
def execute (service : String) (minutes : Int) (level : String)
    (search_pattern : Option String) (load : Except MonErr Jv) (env : Env) :
    Except MonErr Jv × Nat :=
  if minutes < 0 then
    (.error (.toolExec "Input validation failed: Minutes must be non-negative"
      (some (.timeRange "Minutes must be non-negative"))), 0)
  else if level ∉ validLevels then
    (.error (.toolExec ("Input validation failed: Level must be one of " ++ validLevelsStr)
      (some (.filterErr ("Level must be one of " ++ validLevelsStr)))), 0)
  else
    match load with
    | .error e =>
        (.error (.toolExec ("Failed to check application logs: " ++ e.message)
          (some e)), 1)
    | .ok data =>
        match (do
          let logs ← pyGetD data "application_logs" (.arr [])
          let logList ← pyIter logs
          let hits ← hitsOfLogs env 0 logList
          pure (responseOfHits hits) : Except String Jv) with
        | .ok resp => (.ok resp, 1)
        | .error emsg =>
            (.error (.toolExec ("Failed to check application logs: " ++ emsg)
              none), 1)

/-- A fixed environment used to instantiate the theorems. -/
def demoEnv : Env where
  today := "2026.01.01"
  nowIso := fun _ => "2026-01-01T00:00:00+00:00"
  hashv := fun _ => 0
  uuidStr := fun _ => "00000000-0000-0000-0000-000000000000"
  uuidHex := fun _ => "00000000000000000000000000000000"

end ApplicationLogsTool

namespace HTTPClient

/-- `str(e)` of a client-layer exception. -/
def PyExc.message : PyExc → String
  | .httpxTimeoutException m => m
  | .httpxNetworkError m => m
  | .mcpTimeoutError m => m
  | .apiError m _ _ => m
  | .runtimeError m => m

end HTTPClient

namespace WeatherTool

/-! ### `src/tools/weather.py`, `WeatherTool.execute`

`fetch` is the outcome of `client.get(url, params)`; every exception
(including `APIError`/`TimeoutError` from the client and any shape error
while reshaping) is wrapped by the single `except Exception` clause into
`ToolExecutionError`. -/

/-- The seventeen leaves of the normalized weather result, in source
order. -/
structure WeatherFields where
  name : Jv
  country : Jv
  region : Jv
  temperature_c : Jv
  temperature_f : Jv
  feels_like_c : Jv
  feels_like_f : Jv
  condition : Jv
  humidity : Jv
  precipitation_mm : Jv
  pressure_mb : Jv
  wind_speed_kmph : Jv
  wind_direction : Jv
  cloud_cover : Jv
  uv_index : Jv
  visibility_km : Jv
  observation_time : Jv

/-- The fixed shape of the normalized result: the `result = {...}` dict
literal of the source. -/
def weatherResult (f : WeatherFields) : Jv :=
  .obj [("location", .obj [("name", f.name), ("country", f.country),
      ("region", f.region)]),
    ("current", .obj [("temperature_c", f.temperature_c),
      ("temperature_f", f.temperature_f),
      ("feels_like_c", f.feels_like_c), ("feels_like_f", f.feels_like_f),
      ("condition", f.condition), ("humidity", f.humidity),
      ("precipitation_mm", f.precipitation_mm),
      ("pressure_mb", f.pressure_mb),
      ("wind_speed_kmph", f.wind_speed_kmph),
      ("wind_direction", f.wind_direction),
      ("cloud_cover", f.cloud_cover), ("uv_index", f.uv_index),
      ("visibility_km", f.visibility_km)]),
    ("observation_time", f.observation_time)]

/-- The `try` body of `execute` after the fetch: extract
`current_condition[0]` and `nearest_area[0]` and the named sub-fields,
each defaulting as in the source (`""` everywhere except `name`, which
defaults to the requested location). -/
def body (location : String) (data : Jv) : Except String WeatherFields := do
  let cc ← pyGetD data "current_condition" (.arr [.obj []])
  let current ← pySubscript0 cc
  let na ← pyGetD data "nearest_area" (.arr [.obj []])
  let locationInfo ← pySubscript0 na
  let an ← pyGetD locationInfo "areaName" (.arr [.obj []])
  let an0 ← pySubscript0 an
  let name ← pyGetD an0 "value" (.str location)
  let co ← pyGetD locationInfo "country" (.arr [.obj []])
  let co0 ← pySubscript0 co
  let country ← pyGetD co0 "value" (.str "")
  let re ← pyGetD locationInfo "region" (.arr [.obj []])
  let re0 ← pySubscript0 re
  let region ← pyGetD re0 "value" (.str "")
  let temperature_c ← pyGetD current "temp_C" (.str "")
  let temperature_f ← pyGetD current "temp_F" (.str "")
  let feels_like_c ← pyGetD current "FeelsLikeC" (.str "")
  let feels_like_f ← pyGetD current "FeelsLikeF" (.str "")
  let wd ← pyGetD current "weatherDesc" (.arr [.obj []])
  let wd0 ← pySubscript0 wd
  let condition ← pyGetD wd0 "value" (.str "")
  let humidity ← pyGetD current "humidity" (.str "")
  let precipitation_mm ← pyGetD current "precipMM" (.str "")
  let pressure_mb ← pyGetD current "pressure" (.str "")
  let wind_speed_kmph ← pyGetD current "windspeedKmph" (.str "")
  let wind_direction ← pyGetD current "winddir16Point" (.str "")
  let cloud_cover ← pyGetD current "cloudcover" (.str "")
  let uv_index ← pyGetD current "uvIndex" (.str "")
  let visibility_km ← pyGetD current "visibility" (.str "")
  let observation_time ← pyGetD current "observation_time" (.str "")
  pure ⟨name, country, region, temperature_c, temperature_f, feels_like_c,
    feels_like_f, condition, humidity, precipitation_mm, pressure_mb,
    wind_speed_kmph, wind_direction, cloud_cover, uv_index, visibility_km,
    observation_time⟩

/-- `WeatherTool.execute`. -/
def execute (location : String) (fetch : Except HTTPClient.PyExc Jv) :
    Except MCPErr Jv :=
  match fetch with
  | .error e =>
      .error (.toolExecution
        ("Failed to fetch weather for " ++ location ++ ": " ++ e.message))
  | .ok data =>
      match body location data with
      | .ok f => .ok (weatherResult f)
      | .error emsg =>
          .error (.toolExecution
            ("Failed to fetch weather for " ++ location ++ ": " ++ emsg))

end WeatherTool

namespace ExchangeRateTool

/-! ### `src/tools/exchange_rate.py`, `ExchangeRateTool.execute`

The body distinguishes `ToolExecutionError` raised by the tool itself
(re-raised by `except ToolExecutionError: raise`) from any other
exception, which the final `except Exception` clause wraps into
`ToolExecutionError("Failed to fetch exchange rates for ...")`. -/

/-- What the `try` body can raise. -/
inductive Raised where
  | toolExec (msg : String)
  | pyErr (msg : String)

/-- Lift a Python-level failure into the body's exception type. -/
def liftPy {α : Type} : Except String α → Except Raised α
  | .ok a => .ok a
  | .error m => .error (.pyErr m)

/-- The no-target branch: full rate mapping plus the list of available
currency codes. -/
def allRatesResult (core : List (String × Jv)) (rates : Jv) :
    Except Raised Jv := do
  let keys ← liftPy (pyKeys rates)
  pure (.obj (core ++ [("rates", rates),
    ("available_currencies", .arr (keys.map Jv.str))]))

/-- `ExchangeRateTool.execute`.  `fetch` is the outcome of
`client.get(url)` for the upper-cased base currency; `amount` is the
already-validated numeric argument. -/
def execute (base_currency : String) (target_currency : Option String)
    (amount : Option Rat) (fetch : Except HTTPClient.PyExc Jv) :
    Except MCPErr Jv :=
  let baseU := pyUpper base_currency
  let body : Except Raised Jv := do
    let data ← match fetch with
      | .ok d => pure d
      | .error e => throw (.pyErr e.message)
    let resultField ← liftPy (pyGet data "result")
    if jvEqStr resultField "error" then do
      let errType ← liftPy (pyGetD data "error-type" (.str "Unknown error"))
      throw (.toolExec ("Exchange rate API error: " ++ pyStr errType))
    else do
      let rates ← liftPy (pyGetD data "rates" (.obj []))
      let baseCode ← liftPy (pyGetD data "base_code" (.str baseU))
      let lastUpd ← liftPy (pyGetD data "time_last_update_utc" (.str ""))
      let nextUpd ← liftPy (pyGetD data "time_next_update_utc" (.str ""))
      let core := [("base_currency", baseCode), ("last_update", lastUpd),
        ("next_update", nextUpd)]
      match target_currency with
      | some t =>
          if t = "" then allRatesResult core rates
          else do
            let tU := pyUpper t
            let mem ← liftPy (pyContainsStr tU rates)
            if ¬ mem then
              throw (.toolExec
                ("Target currency " ++ apos ++ tU ++ apos ++ " not found"))
            else do
              let rate ← liftPy (pySubscriptKey rates tU)
              let conversionAmount := amount.getD 1
              let result ← liftPy (pyMulNum conversionAmount rate)
              pure (.obj (core ++ [("conversion", .obj
                [("from", .str baseU), ("to", .str tU), ("rate", rate),
                  ("amount", .num conversionAmount),
                  ("result", .num result)])]))
      | none => allRatesResult core rates
  match body with
  | .ok r => .ok r
  | .error (.toolExec m) => .error (.toolExecution m)
  | .error (.pyErr m) =>
      .error (.toolExecution
        ("Failed to fetch exchange rates for " ++ baseU ++ ": " ++ m))

end ExchangeRateTool

end McpGateway

open McpGateway McpGateway.HTTPClient McpGateway.DataLoader

theorem jvLookup_listInsert_self (l : List (String × Jv)) (k : String) (v : Jv) :
    jvLookup (listInsert l k v) k = some v := by
  induction l with
  | nil => simp [listInsert, jvLookup]
  | cons hd tl ih =>
    obtain ⟨k', v'⟩ := hd
    by_cases h : k' = k <;> simp [listInsert, jvLookup, h, ih]

theorem jvLookup_listInsert_ne (l : List (String × Jv)) (k k' : String) (v : Jv)
    (h : k' ≠ k) : jvLookup (listInsert l k v) k' = jvLookup l k' := by
  induction l with
  | nil =>
    simp only [listInsert, jvLookup]
    rw [if_neg (fun h' => h h'.symm)]
  | cons hd tl ih =>
    obtain ⟨k₀, v₀⟩ := hd
    by_cases h₀ : k₀ = k <;> by_cases h₁ : k₀ = k' <;>
      simp_all [listInsert, jvLookup]

theorem consistent_step (fs : FS) (op : LoaderOp) (st : LoaderState)
    (h : Consistent fs st) : Consistent fs (step fs op st) := by
  cases op with
  | clearCache => intro k v hk; simp [step, jvLookup] at hk
  | getCacheStats => exact h
  | loadYaml fp uc =>
    intro k v hk
    simp only [step] at hk
    cases uc with
    | true =>
      cases hcache : jvLookup st.cache fp with
      | some w => simp only [load_yaml, hcache] at hk; exact h k v hk
      | none =>
        cases hfs : fs fp with
        | none => simp only [load_yaml, hcache, hfs] at hk; exact h k v hk
        | some r =>
          cases r with
          | error e => simp only [load_yaml, hcache, hfs] at hk; exact h k v hk
          | ok d =>
            simp only [load_yaml, hcache, hfs] at hk
            by_cases hkfp : k = fp
            · subst hkfp
              rw [jvLookup_listInsert_self] at hk
              exact ⟨d, hfs, (Option.some.injEq _ _ ▸ hk.symm : v = pyOrEmpty d)⟩
            · rw [jvLookup_listInsert_ne _ _ _ _ hkfp] at hk
              exact h k v hk
    | false =>
      cases hfs : fs fp with
      | none => simp only [load_yaml, hfs] at hk; exact h k v hk
      | some r =>
        cases r with
        | error e => simp only [load_yaml, hfs] at hk; exact h k v hk
        | ok d =>
          simp only [load_yaml, hfs] at hk
          by_cases hkfp : k = fp
          · subst hkfp
            rw [jvLookup_listInsert_self] at hk
            exact ⟨d, hfs, (Option.some.injEq _ _ ▸ hk.symm : v = pyOrEmpty d)⟩
          · rw [jvLookup_listInsert_ne _ _ _ _ hkfp] at hk
            exact h k v hk

theorem consistent_run (fs : FS) (ops : List LoaderOp) (st : LoaderState)
    (h : Consistent fs st) : Consistent fs (run fs st ops) := by
  induction ops generalizing st with
  | nil => exact h
  | cons op ops ih => exact ih _ (consistent_step fs op st h)

theorem consistent_empty (fs : FS) (basePath : String) :
    Consistent fs ⟨basePath, []⟩ := by
  intro k v hk; simp [jvLookup] at hk

/-- A step that is not `clearCache` preserves every existing cache entry
with its exact value (the fixture files are fixed, so a `use_cache=False`
re-load rewrites an entry with the same value). -/
theorem step_preserves_entries (fs : FS) (op : LoaderOp) (st : LoaderState)
    (hcons : Consistent fs st) (hop : op ≠ .clearCache)
    (k : String) (v : Jv) (hk : jvLookup st.cache k = some v) :
    jvLookup (step fs op st).cache k = some v := by
  cases op with
  | clearCache => exact absurd rfl hop
  | getCacheStats => exact hk
  | loadYaml fp uc =>
    simp only [step]
    cases uc with
    | true =>
      cases hcache : jvLookup st.cache fp with
      | some w => simp only [load_yaml, hcache]; exact hk
      | none =>
        cases hfs : fs fp with
        | none => simp only [load_yaml, hcache, hfs]; exact hk
        | some r =>
          cases r with
          | error e => simp only [load_yaml, hcache, hfs]; exact hk
          | ok d =>
            simp only [load_yaml, hcache, hfs]
            by_cases hkfp : k = fp
            · subst hkfp
              obtain ⟨d', hfs', hv⟩ := hcons k v hk
              rw [hfs] at hfs'
              obtain rfl : d = d' := by injection hfs' with h'; injection h'
              rw [jvLookup_listInsert_self, hv]
            · rw [jvLookup_listInsert_ne _ _ _ _ hkfp]; exact hk
    | false =>
      cases hfs : fs fp with
      | none => simp only [load_yaml, hfs]; exact hk
      | some r =>
        cases r with
        | error e => simp only [load_yaml, hfs]; exact hk
        | ok d =>
          simp only [load_yaml, hfs]
          by_cases hkfp : k = fp
          · subst hkfp
            obtain ⟨d', hfs', hv⟩ := hcons k v hk
            rw [hfs] at hfs'
            obtain rfl : d = d' := by injection hfs' with h'; injection h'
            rw [jvLookup_listInsert_self, hv]
          · rw [jvLookup_listInsert_ne _ _ _ _ hkfp]; exact hk

/-- **C1.** The spec claims transient outcomes (timeout / network error) are
retried up to the max-retry count.  In the code the `get` body's `except`
clauses convert `httpx.TimeoutException` / `httpx.NetworkError` into the
repository's `TimeoutError` / `APIError` before tenacity's
`retry_if_exception_type` can see them, so no retry ever happens: with a
transport scripted to time out twice and then succeed, `get` raises
`TimeoutError` after exactly 1 transport invocation instead of returning
the success after 3; with 3 consecutive transient failures (timeout or
network error) it likewise raises after exactly 1 invocation. -/
theorem get_transient_outcome_never_retried :
    (HTTPClient.get true "https://wttr.in/London"
        (fun n => if n < 2 then .raiseTimeout
                  else .response 200 "ok" (.ok (Jv.obj []))) =
      (.error (.mcpTimeoutError "Request to https://wttr.in/London timed out"), 1))
    ∧ (HTTPClient.get true "https://wttr.in/London" (fun _ => .raiseTimeout) =
      (.error (.mcpTimeoutError "Request to https://wttr.in/London timed out"), 1))
    ∧ (HTTPClient.get true "https://wttr.in/London"
        (fun _ => .raiseNetworkError "connection refused") =
      (.error (.apiError
        "Request failed for https://wttr.in/London: connection refused" none none), 1)) :=
  ⟨rfl, rfl, rfl⟩

/-- **C3.** A single non-2xx HTTP response is never retried: `get` raises
`APIError` (the spec's `UpstreamAPIError`) carrying the response's status
code and body after exactly 1 transport invocation. -/
theorem get_non2xx_raises_immediately (url text : String) (status : Nat)
    (parsed : Except String Jv) (transport : Nat → Outcome)
    (h0 : transport 0 = .response status text parsed)
    (hs : is2xx status = false) :
    HTTPClient.get true url transport =
      (.error (.apiError ("HTTP " ++ toString status ++ " error for " ++ url)
        (some status) (some text)), 1) := by
  simp [HTTPClient.get, retryLoop, getBody, h0, hs, retryIfExceptionType]

/-- Witness for C3: a 404 response with body `Not Found` raises `APIError`
with status 404 after exactly 1 transport invocation. -/
theorem get_non2xx_raises_immediately_witness :
    HTTPClient.get true "https://wttr.in/London"
        (fun _ => .response 404 "Not Found" (.error "no json")) =
      (.error (.apiError "HTTP 404 error for https://wttr.in/London"
        (some 404) (some "Not Found")), 1) := by
  exact get_non2xx_raises_immediately "https://wttr.in/London" "Not Found" 404
    (.error "no json") _ rfl (by decide)

theorem pyOrEmpty_ne_null (d : Jv) : pyOrEmpty d ≠ .null := by
  unfold pyOrEmpty
  split
  · next h =>
    intro hv
    subst hv
    simp [jvTruthy] at h
  · intro hv
    exact Jv.noConfusion hv

/-- **C8.** The fixture cache is append-only until cleared: starting from a
fresh `DataLoader`, after any sequence of operations, any operation other
than `clear_cache` preserves every cached entry with its exact value
(re-loads of a static fixture rewrite an entry with the same normalized
value), while `clear_cache` empties the cache. -/
theorem cache_append_only_until_cleared (fs : FS) (basePath : String)
    (ops : List LoaderOp) (op : LoaderOp) (k : String) (v : Jv)
    (hop : op ≠ .clearCache)
    (hk : jvLookup (run fs ⟨basePath, []⟩ ops).cache k = some v) :
    jvLookup (step fs op (run fs ⟨basePath, []⟩ ops)).cache k = some v ∧
    (step fs .clearCache (run fs ⟨basePath, []⟩ ops)).cache = [] :=
  ⟨step_preserves_entries fs op _
      (consistent_run fs ops _ (consistent_empty fs basePath)) hop k v hk,
    rfl⟩

/-- Witness for C8: after caching the interface-logs fixture, a forced
re-load (`use_cache=False`) keeps the entry and its value, and
`clear_cache` empties the cache. -/
theorem cache_append_only_until_cleared_witness :
    jvLookup (step demoFS (.loadYaml "logs/interface_logs.yaml" false)
        (run demoFS ⟨"data", []⟩
          [.loadYaml "logs/interface_logs.yaml" true])).cache
        "logs/interface_logs.yaml" =
      some (.obj [("interface_logs", .arr [])]) ∧
    (step demoFS .clearCache (run demoFS ⟨"data", []⟩
        [.loadYaml "logs/interface_logs.yaml" true])).cache = [] :=
  cache_append_only_until_cleared demoFS "data"
    [.loadYaml "logs/interface_logs.yaml" true]
    (.loadYaml "logs/interface_logs.yaml" false)
    "logs/interface_logs.yaml" (.obj [("interface_logs", .arr [])])
    (by decide) rfl

/-- **C10 counterexample.** A YAML document that parses to a (truthy)
top-level list is returned as-is by a successful `load_yaml`: the returned
value is not a mapping, refuting "a successful load returns a mapping". -/
theorem load_yaml_list_document_not_mapping :
    (load_yaml demoFS "logs/list.yaml" true ⟨"data", []⟩).1 =
      .ok (.arr [.str "x"]) ∧
    (Jv.arr [.str "x"]).isObj = false :=
  ⟨rfl, rfl⟩

/-- **C10 (amended).** A successful `load_yaml` never returns None: the
returned value is always `data or {}` of the file's parse result, so falsy
documents (in particular the empty document, which parses to None) are
normalized to the empty mapping and cached that way, and every load of an
empty document — first or cached — returns `{}`.  Truthy non-mapping
documents, however, are returned as-is. -/
theorem load_yaml_success_is_normalized_parse (fs : FS) (basePath : String)
    (ops : List LoaderOp) (fp : String) (uc : Bool) (v : Jv)
    (st' : LoaderState)
    (h : load_yaml fs fp uc (run fs ⟨basePath, []⟩ ops) = (.ok v, st')) :
    (∃ d, fs fp = some (.ok d) ∧ v = pyOrEmpty d) ∧ v ≠ .null ∧
    (fs fp = some (.ok .null) → v = .obj []) := by
  have hcons : Consistent fs (run fs ⟨basePath, []⟩ ops) :=
    consistent_run fs ops _ (consistent_empty fs basePath)
  set st := run fs ⟨basePath, []⟩ ops with hst
  have hmain : ∃ d, fs fp = some (.ok d) ∧ v = pyOrEmpty d := by
    cases uc with
    | true =>
      cases hcache : jvLookup st.cache fp with
      | some w =>
        simp only [load_yaml, hcache] at h
        have hfst : (Except.ok w : Except MonErr Jv) = .ok v := congrArg Prod.fst h
        have hwv : w = v := by injection hfst
        subst hwv
        exact hcons fp _ hcache
      | none =>
        cases hfs : fs fp with
        | none => simp [load_yaml, hcache, hfs] at h
        | some r =>
          cases r with
          | error e => simp [load_yaml, hcache, hfs] at h
          | ok d =>
            simp only [load_yaml, hcache, hfs] at h
            refine ⟨d, rfl, ?_⟩
            have := congrArg Prod.fst h
            simp at this
            exact this.symm
    | false =>
      cases hfs : fs fp with
      | none => simp [load_yaml, hfs] at h
      | some r =>
        cases r with
        | error e => simp [load_yaml, hfs] at h
        | ok d =>
          simp only [load_yaml, hfs] at h
          refine ⟨d, rfl, ?_⟩
          have := congrArg Prod.fst h
          simp at this
          exact this.symm
  obtain ⟨d, hd, hv⟩ := hmain
  refine ⟨⟨d, hd, hv⟩, hv ▸ pyOrEmpty_ne_null d, ?_⟩
  intro hnull
  rw [hd] at hnull
  obtain rfl : d = Jv.null := by
    injection hnull with h1
    injection h1
  rw [hv]
  rfl

/-- Witness for C10: loading the empty document through a fresh loader
succeeds with the empty mapping, which is not None. -/
theorem load_yaml_success_is_normalized_parse_witness :
    (∃ d, demoFS "empty.yaml" = some (.ok d) ∧
      Jv.obj [] = pyOrEmpty d) ∧ Jv.obj [] ≠ .null ∧
    (demoFS "empty.yaml" = some (.ok .null) → Jv.obj [] = .obj []) :=
  load_yaml_success_is_normalized_parse demoFS "data" [] "empty.yaml" true
    (.obj []) ⟨"data", [("empty.yaml", .obj [])]⟩ rfl

theorem splitOnChar_no_sep (sep : Char) (p : List Char)
    (hp : ∀ c ∈ p, c ≠ sep) : IPInfoTool.splitOnChar sep p = [p] := by
  induction p with
  | nil => rfl
  | cons c cs ih =>
    have hc : c ≠ sep := hp c (List.mem_cons_self c cs)
    have h' : IPInfoTool.splitOnChar sep cs = [cs] :=
      ih fun x hx => hp x (List.mem_cons_of_mem c hx)
    simp [IPInfoTool.splitOnChar, h', hc]

theorem splitOnChar_append (sep : Char) (p rest : List Char)
    (hp : ∀ c ∈ p, c ≠ sep) :
    IPInfoTool.splitOnChar sep (p ++ sep :: rest) =
      p :: IPInfoTool.splitOnChar sep rest := by
  induction p with
  | nil => simp [IPInfoTool.splitOnChar]
  | cons c cs ih =>
    have hc : c ≠ sep := hp c (List.mem_cons_self c cs)
    have h' := ih fun x hx => hp x (List.mem_cons_of_mem c hx)
    simp [IPInfoTool.splitOnChar, h', hc]

theorem digit_ne_dot (c : Char) (h : c.isDigit = true) :
    c ≠ Char.ofNat 46 := by
  intro he
  rw [he] at h
  exact absurd h (by decide)

/-- **C9.** `_is_valid_ip` accepts `8.8.8.8`, rejects `256.1.1.1` and
`1.2.3`; in general, a dotted-quad string (four dot-separated groups of
one to three ASCII digits) is accepted exactly when every octet value is
at most 255. -/
theorem is_valid_ip_spec :
    (IPInfoTool.is_valid_ip "8.8.8.8" = true ∧
     IPInfoTool.is_valid_ip "256.1.1.1" = false ∧
     IPInfoTool.is_valid_ip "1.2.3" = false) ∧
    ∀ p1 p2 p3 p4 : List Char,
      (∀ p ∈ [p1, p2, p3, p4],
        1 ≤ p.length ∧ p.length ≤ 3 ∧ p.all Char.isDigit = true) →
      (IPInfoTool.is_valid_ip
          (String.mk (p1 ++ Char.ofNat 46 ::
            (p2 ++ Char.ofNat 46 :: (p3 ++ Char.ofNat 46 :: p4)))) = true ↔
        ∀ p ∈ [p1, p2, p3, p4], IPInfoTool.digitsToNat p ≤ 255) := by
  refine ⟨⟨by decide, by decide, by decide⟩, ?_⟩
  intro p1 p2 p3 p4 h
  have h1 := h p1 (by simp)
  have h2 := h p2 (by simp)
  have h3 := h p3 (by simp)
  have h4 := h p4 (by simp)
  have nd : ∀ p : List Char, p.all Char.isDigit = true →
      ∀ c ∈ p, c ≠ Char.ofNat 46 := by
    intro p hall c hc
    exact digit_ne_dot c (List.all_eq_true.mp hall c hc)
  have hsplit : IPInfoTool.splitOnChar (Char.ofNat 46)
      (p1 ++ Char.ofNat 46 :: (p2 ++ Char.ofNat 46 ::
        (p3 ++ Char.ofNat 46 :: p4))) = [p1, p2, p3, p4] := by
    rw [splitOnChar_append _ _ _ (nd p1 h1.2.2),
        splitOnChar_append _ _ _ (nd p2 h2.2.2),
        splitOnChar_append _ _ _ (nd p3 h3.2.2),
        splitOnChar_no_sep _ _ (nd p4 h4.2.2)]
  have hmatch : IPInfoTool.matchesIpv4Pattern
      (p1 ++ Char.ofNat 46 :: (p2 ++ Char.ofNat 46 ::
        (p3 ++ Char.ofNat 46 :: p4))) = true := by
    simp [IPInfoTool.matchesIpv4Pattern, hsplit, h1.1, h1.2.1, h1.2.2,
      h2.1, h2.2.1, h2.2.2, h3.1, h3.2.1, h3.2.2, h4.1, h4.2.1, h4.2.2]
  show IPInfoTool.is_valid_ip (String.mk _) = true ↔ _
  simp only [IPInfoTool.is_valid_ip, String.toList, hmatch, if_true]
  rw [hsplit]
  simp [List.all_eq_true]

/-- Witness for C9's general part: `256.1.1.1` as a dotted quad is
accepted iff every octet is at most 255 (and 256 is not). -/
theorem is_valid_ip_spec_witness :
    IPInfoTool.is_valid_ip (String.mk
        ([Char.ofNat 50, Char.ofNat 53, Char.ofNat 54] ++ Char.ofNat 46 ::
          ([Char.ofNat 49] ++ Char.ofNat 46 ::
            ([Char.ofNat 49] ++ Char.ofNat 46 :: [Char.ofNat 49])))) = true ↔
      ∀ p ∈ [[Char.ofNat 50, Char.ofNat 53, Char.ofNat 54],
        [Char.ofNat 49], [Char.ofNat 49], [Char.ofNat 49]],
        IPInfoTool.digitsToNat p ≤ 255 :=
  is_valid_ip_spec.2 _ _ _ _ (by decide)

/-- **C7.** `WeatherTool.execute` has no partial success shape: for every
fetch outcome it either raises exactly one `ToolExecutionError` or
succeeds with the complete fixed result shape (every named sub-field
present); on an upstream object with no recognized fields, every named
weather sub-field (and `country`/`region`) defaults to the empty string,
while `location.name` falls back to the requested location. -/
theorem weather_no_partial_success :
    (∀ (location : String) (fetch : Except HTTPClient.PyExc Jv),
      (∃ msg, WeatherTool.execute location fetch =
        .error (.toolExecution msg)) ∨
      (∃ f : WeatherTool.WeatherFields,
        WeatherTool.execute location fetch =
          .ok (WeatherTool.weatherResult f))) ∧
    (∀ location : String,
      WeatherTool.execute location (.ok (.obj [])) =
        .ok (WeatherTool.weatherResult ⟨.str location, .str "", .str "",
          .str "", .str "", .str "", .str "", .str "", .str "", .str "",
          .str "", .str "", .str "", .str "", .str "", .str "",
          .str ""⟩)) := by
  constructor
  · intro location fetch
    cases fetch with
    | error e => exact .inl ⟨_, rfl⟩
    | ok data =>
      cases hb : WeatherTool.body location data with
      | error emsg =>
        exact .inl ⟨"Failed to fetch weather for " ++ location ++ ": " ++ emsg,
          by simp [WeatherTool.execute, hb]⟩
      | ok f => exact .inr ⟨f, by simp [WeatherTool.execute, hb]⟩
  · intro location
    rfl

theorem rowsOfLogs_length (logs rows : List Jv)
    (h : InterfaceLogsTool.rowsOfLogs logs = .ok rows) :
    rows.length = logs.length := by
  induction logs generalizing rows with
  | nil =>
    simp [InterfaceLogsTool.rowsOfLogs] at h
    simp [← h]
  | cons log rest ih =>
    simp only [InterfaceLogsTool.rowsOfLogs] at h
    cases hrow : InterfaceLogsTool.rowOfLog log with
    | error e => rw [hrow] at h; simp [Bind.bind, Except.bind] at h
    | ok row =>
      rw [hrow] at h
      cases hrest : InterfaceLogsTool.rowsOfLogs rest with
      | error e => rw [hrest] at h; simp [Bind.bind, Except.bind] at h
      | ok rs =>
        rw [hrest] at h
        simp [Bind.bind, Except.bind, pure, Except.pure] at h
        subst h
        simp [ih rs hrest]

theorem hitsOfLogs_length (env : ApplicationLogsTool.Env) (i : Nat)
    (logs hits : List Jv)
    (h : ApplicationLogsTool.hitsOfLogs env i logs = .ok hits) :
    hits.length = logs.length := by
  induction logs generalizing hits i with
  | nil =>
    simp [ApplicationLogsTool.hitsOfLogs] at h
    simp [← h]
  | cons log rest ih =>
    simp only [ApplicationLogsTool.hitsOfLogs] at h
    cases hhit : ApplicationLogsTool.buildHit env i log with
    | error e => rw [hhit] at h; simp [Bind.bind, Except.bind] at h
    | ok hit =>
      rw [hhit] at h
      cases hrest : ApplicationLogsTool.hitsOfLogs env (i + 1) rest with
      | error e => rw [hrest] at h; simp [Bind.bind, Except.bind] at h
      | ok hs =>
        rw [hrest] at h
        simp [Bind.bind, Except.bind, pure, Except.pure] at h
        subst h
        simp [ih (i + 1) hs hrest]

/-- **C4 counterexample.** On a negative time range, `ApplicationLogsTool`
(a mock data tool) surfaces `ToolExecutionError`, not the
`TimeRangeError` validation subtype: its
`except (TimeRangeError, FilterError)` clause wraps the validation error
into `ToolExecutionError("Input validation failed: ...")` (cause
chained), so the error the caller sees is not a validation error. -/
theorem app_logs_surfaces_toolexecution_not_validation :
    ApplicationLogsTool.execute "all" (-1) "ERROR" none (.ok (.obj []))
        ApplicationLogsTool.demoEnv =
      (.error (.toolExec "Input validation failed: Minutes must be non-negative"
        (some (.timeRange "Minutes must be non-negative"))), 0) ∧
    MonErr.isValidationError
      (.toolExec "Input validation failed: Minutes must be non-negative"
        (some (.timeRange "Minutes must be non-negative"))) = false :=
  ⟨rfl, rfl⟩

/-- **C4 (amended).** Negative time-range parameters raise
`TimeRangeError` and out-of-set enumerated choices raise `FilterError`
(both `ValidationError` subtypes), always before the data layer is
touched; `InterfaceLogsTool` surfaces the `TimeRangeError` unchanged,
while `ApplicationLogsTool` (like `ServerPerformanceTool` and
`AppPerformanceTool`) catches both and surfaces
`ToolExecutionError("Input validation failed: ...")` with the validation
error as chained cause. -/
theorem mock_time_and_filter_validation :
    (∀ (sys : String) (hours : Int) (status : Option String)
        (load : Except MonErr Jv), hours < 0 →
      InterfaceLogsTool.execute sys hours status load =
        (.error (.timeRange "Hours must be non-negative"), 0) ∧
      MonErr.isValidationError (.timeRange "Hours must be non-negative") =
        true) ∧
    (∀ (svc : String) (minutes : Int) (level : String) (sp : Option String)
        (load : Except MonErr Jv) (env : ApplicationLogsTool.Env),
      minutes < 0 →
      ApplicationLogsTool.execute svc minutes level sp load env =
        (.error (.toolExec
          "Input validation failed: Minutes must be non-negative"
          (some (.timeRange "Minutes must be non-negative"))), 0)) ∧
    (∀ (svc : String) (minutes : Int) (level : String) (sp : Option String)
        (load : Except MonErr Jv) (env : ApplicationLogsTool.Env),
      ¬ minutes < 0 → level ∉ ApplicationLogsTool.validLevels →
      ApplicationLogsTool.execute svc minutes level sp load env =
        (.error (.toolExec ("Input validation failed: Level must be one of "
            ++ ApplicationLogsTool.validLevelsStr)
          (some (.filterErr ("Level must be one of " ++
            ApplicationLogsTool.validLevelsStr)))), 0)) := by
  refine ⟨?_, ?_, ?_⟩
  · intro sys hours status load hh
    exact ⟨by simp [InterfaceLogsTool.execute, hh], rfl⟩
  · intro svc minutes level sp load env hm
    simp [ApplicationLogsTool.execute, hm]
  · intro svc minutes level sp load env hm hl
    simp [ApplicationLogsTool.execute, hm, hl]

/-- Witness for C4: `InterfaceLogsTool` with `hours = -1` surfaces the
`TimeRangeError` itself; `ApplicationLogsTool` with `level = "TRACE"`
surfaces the wrapped `FilterError`. -/
theorem mock_time_and_filter_validation_witness :
    (InterfaceLogsTool.execute "all" (-1) none (.ok (.obj [])) =
      (.error (.timeRange "Hours must be non-negative"), 0) ∧
      MonErr.isValidationError (.timeRange "Hours must be non-negative") =
        true) ∧
    ApplicationLogsTool.execute "all" 0 "TRACE" none (.ok (.obj []))
        ApplicationLogsTool.demoEnv =
      (.error (.toolExec ("Input validation failed: Level must be one of "
          ++ ApplicationLogsTool.validLevelsStr)
        (some (.filterErr ("Level must be one of " ++
          ApplicationLogsTool.validLevelsStr)))), 0) :=
  ⟨mock_time_and_filter_validation.1 "all" (-1) none (.ok (.obj []))
      (by decide),
    mock_time_and_filter_validation.2.2 "all" 0 "TRACE" none (.ok (.obj []))
      ApplicationLogsTool.demoEnv (by decide) (by decide)⟩

/-- **C5.** The mock data tools apply no filtering and preserve record
cardinality: for `InterfaceLogsTool` and `ApplicationLogsTool`, two
`execute` calls that differ only in filter-like parameter values
(system/service/status/level/search-pattern and non-negative time ranges,
`level` within its allowed set) produce identical output from the same
fixture, and on a fixture whose record list shapes successfully the
output contains exactly one row/hit per fixture record. -/
theorem mock_tools_return_all_records :
    (∀ (load : Except MonErr Jv) (s1 s2 : String) (h1 h2 : Int)
        (st1 st2 : Option String), 0 ≤ h1 → 0 ≤ h2 →
      InterfaceLogsTool.execute s1 h1 st1 load =
        InterfaceLogsTool.execute s2 h2 st2 load) ∧
    (∀ (data : List (String × Jv)) (logs rows : List Jv) (s : String)
        (h : Int) (st : Option String), 0 ≤ h →
      jvLookup data "interface_logs" = some (.arr logs) →
      InterfaceLogsTool.rowsOfLogs logs = .ok rows →
      InterfaceLogsTool.execute s h st (.ok (.obj data)) =
        (.ok (InterfaceLogsTool.responseOfRows rows), 1) ∧
      rows.length = logs.length) ∧
    (∀ (load : Except MonErr Jv) (env : ApplicationLogsTool.Env)
        (s1 s2 : String) (m1 m2 : Int) (l1 l2 : String)
        (sp1 sp2 : Option String), 0 ≤ m1 → 0 ≤ m2 →
      l1 ∈ ApplicationLogsTool.validLevels →
      l2 ∈ ApplicationLogsTool.validLevels →
      ApplicationLogsTool.execute s1 m1 l1 sp1 load env =
        ApplicationLogsTool.execute s2 m2 l2 sp2 load env) ∧
    (∀ (data : List (String × Jv)) (logs hits : List Jv)
        (env : ApplicationLogsTool.Env) (s : String) (m : Int) (l : String)
        (sp : Option String), 0 ≤ m → l ∈ ApplicationLogsTool.validLevels →
      jvLookup data "application_logs" = some (.arr logs) →
      ApplicationLogsTool.hitsOfLogs env 0 logs = .ok hits →
      ApplicationLogsTool.execute s m l sp (.ok (.obj data)) env =
        (.ok (ApplicationLogsTool.responseOfHits hits), 1) ∧
      hits.length = logs.length) := by
  refine ⟨?_, ?_, ?_, ?_⟩
  · intro load s1 s2 h1 h2 st1 st2 hh1 hh2
    unfold InterfaceLogsTool.execute
    rw [if_neg (not_lt.mpr hh1), if_neg (not_lt.mpr hh2)]
  · intro data logs rows s h st hh hlook hrows
    refine ⟨?_, rowsOfLogs_length logs rows hrows⟩
    unfold InterfaceLogsTool.execute
    rw [if_neg (not_lt.mpr hh)]
    simp [pyGetD, pyIter, hlook, hrows, Bind.bind, Except.bind, pure,
      Except.pure]
  · intro load env s1 s2 m1 m2 l1 l2 sp1 sp2 hm1 hm2 hl1 hl2
    unfold ApplicationLogsTool.execute
    rw [if_neg (not_lt.mpr hm1), if_neg (not_lt.mpr hm2),
      if_neg (fun hc => hc hl1), if_neg (fun hc => hc hl2)]
  · intro data logs hits env s m l sp hm hl hlook hhits
    refine ⟨?_, hitsOfLogs_length env 0 logs hits hhits⟩
    unfold ApplicationLogsTool.execute
    rw [if_neg (not_lt.mpr hm), if_neg (fun hc => hc hl)]
    simp [pyGetD, pyIter, hlook, hhits, Bind.bind, Except.bind, pure,
      Except.pure]

/-- Witness for C5: a two-record interface-logs fixture yields the same
two-row SQL result for different system/hours/status parameter values,
and the hit count of a one-record application-logs fixture equals 1. -/
theorem mock_tools_return_all_records_witness :
    InterfaceLogsTool.execute "HR" 24 (some "ERROR")
        (.ok (.obj [("interface_logs",
          .arr [.obj [("id", .str "a")], .obj [("id", .str "b")]])])) =
      InterfaceLogsTool.execute "all" 1 none
        (.ok (.obj [("interface_logs",
          .arr [.obj [("id", .str "a")], .obj [("id", .str "b")]])])) ∧
    (ApplicationLogsTool.execute "payment" 30 "ERROR" (some "timeout")
        (.ok (.obj [("application_logs", .arr [.obj []])]))
        ApplicationLogsTool.demoEnv =
      ApplicationLogsTool.execute "all" 0 "DEBUG" none
        (.ok (.obj [("application_logs", .arr [.obj []])]))
        ApplicationLogsTool.demoEnv) ∧
    (InterfaceLogsTool.execute "all" 1 none
        (.ok (.obj [("interface_logs",
          .arr [.obj [("id", .str "a")], .obj [("id", .str "b")]])])) =
      (.ok (InterfaceLogsTool.responseOfRows
        [.obj [("log_id", .str "a"), ("timestamp", .null),
          ("system_name", .str "unknown"),
          ("interface_name", .str "unknown"),
          ("direction", .str "OUTBOUND"), ("status", .str "UNKNOWN"),
          ("protocol", .str "REST"), ("source_system", .str "unknown"),
          ("target_system", .str "unknown"), ("record_count", .num 0),
          ("bytes_transferred", .num 0), ("duration_seconds", .num 0),
          ("retry_count", .num 0), ("error_message", .null),
          ("correlation_id", .null), ("trace_id", .null)],
        .obj [("log_id", .str "b"), ("timestamp", .null),
          ("system_name", .str "unknown"),
          ("interface_name", .str "unknown"),
          ("direction", .str "OUTBOUND"), ("status", .str "UNKNOWN"),
          ("protocol", .str "REST"), ("source_system", .str "unknown"),
          ("target_system", .str "unknown"), ("record_count", .num 0),
          ("bytes_transferred", .num 0), ("duration_seconds", .num 0),
          ("retry_count", .num 0), ("error_message", .null),
          ("correlation_id", .null), ("trace_id", .null)]]), 1) ∧
      ([Jv.obj [("log_id", .str "a"), ("timestamp", .null),
          ("system_name", .str "unknown"),
          ("interface_name", .str "unknown"),
          ("direction", .str "OUTBOUND"), ("status", .str "UNKNOWN"),
          ("protocol", .str "REST"), ("source_system", .str "unknown"),
          ("target_system", .str "unknown"), ("record_count", .num 0),
          ("bytes_transferred", .num 0), ("duration_seconds", .num 0),
          ("retry_count", .num 0), ("error_message", .null),
          ("correlation_id", .null), ("trace_id", .null)],
        Jv.obj [("log_id", .str "b"), ("timestamp", .null),
          ("system_name", .str "unknown"),
          ("interface_name", .str "unknown"),
          ("direction", .str "OUTBOUND"), ("status", .str "UNKNOWN"),
          ("protocol", .str "REST"), ("source_system", .str "unknown"),
          ("target_system", .str "unknown"), ("record_count", .num 0),
          ("bytes_transferred", .num 0), ("duration_seconds", .num 0),
          ("retry_count", .num 0), ("error_message", .null),
          ("correlation_id", .null), ("trace_id", .null)]].length =
        ([Jv.obj [("id", .str "a")], Jv.obj [("id", .str "b")]].length))) :=
  ⟨mock_tools_return_all_records.1 _ "HR" "all" 24 1 (some "ERROR") none
      (by decide) (by decide),
    mock_tools_return_all_records.2.2.1 _ ApplicationLogsTool.demoEnv
      "payment" "all" 30 0 "ERROR" "DEBUG" (some "timeout") none
      (by decide) (by decide) (by decide) (by decide),
    mock_tools_return_all_records.2.1
      [("interface_logs",
        .arr [.obj [("id", .str "a")], .obj [("id", .str "b")]])]
      [.obj [("id", .str "a")], .obj [("id", .str "b")]] _
      "all" 1 none (by decide) rfl rfl⟩

/-- **C2.** Validation runs to completion before the network/data layer:
whenever a tool's `validate_input` rejects the parameters,
`BaseTool.__call__` raises that `ValidationError` with the execute layer
never entered (0 network invocations, for any execute function); and the
mock tools' in-`execute` validation likewise fails before their data
loader is ever invoked. -/
theorem validation_never_reaches_network :
    (∀ (ex : PyVal × PyVal × PyVal → Except MCPErr Jv × Nat)
        (b t a : PyVal) (msg : String),
      ExchangeRateTool.validate_input b t a = some msg →
      BaseTool.call (fun p => ExchangeRateTool.validate_input p.1 p.2.1 p.2.2)
          ex (b, t, a) = (.error (.validation msg), 0) ∧
      MCPErr.isValidationError (.validation msg) = true) ∧
    (∀ (ex : PyVal → Except MCPErr Jv × Nat) (w : PyVal) (msg : String),
      DictionaryTool.validate_input w = some msg →
      BaseTool.call DictionaryTool.validate_input ex w =
        (.error (.validation msg), 0)) ∧
    (∀ (ex : PyVal → Except MCPErr Jv × Nat) (l : PyVal) (msg : String),
      WeatherTool.validate_input l = some msg →
      BaseTool.call WeatherTool.validate_input ex l =
        (.error (.validation msg), 0)) ∧
    (∀ (ex : PyVal → Except MCPErr Jv × Nat) (ip : PyVal) (msg : String),
      IPInfoTool.validate_input ip = some msg →
      BaseTool.call IPInfoTool.validate_input ex ip =
        (.error (.validation msg), 0)) ∧
    (∀ (sys : String) (hours : Int) (st : Option String)
        (load : Except MonErr Jv), hours < 0 →
      (InterfaceLogsTool.execute sys hours st load).2 = 0) ∧
    (∀ (svc : String) (minutes : Int) (level : String) (sp : Option String)
        (load : Except MonErr Jv) (env : ApplicationLogsTool.Env),
      minutes < 0 ∨ level ∉ ApplicationLogsTool.validLevels →
      (ApplicationLogsTool.execute svc minutes level sp load env).2 = 0) := by
  refine ⟨?_, ?_, ?_, ?_, ?_, ?_⟩
  · intro ex b t a msg h
    exact ⟨by simp [BaseTool.call, h], rfl⟩
  · intro ex w msg h
    simp [BaseTool.call, h]
  · intro ex l msg h
    simp [BaseTool.call, h]
  · intro ex ip msg h
    simp [BaseTool.call, h]
  · intro sys hours st load hh
    simp [InterfaceLogsTool.execute, hh]
  · intro svc minutes level sp load env h
    rcases h with hm | hl
    · simp [ApplicationLogsTool.execute, hm]
    · by_cases hm : minutes < 0
      · simp [ApplicationLogsTool.execute, hm]
      · simp [ApplicationLogsTool.execute, hm, hl]

/-- Witness for C2: a 2-letter `base_currency`, an empty `word`, a missing
`location` and the malformed IP `1.2.3` each raise `ValidationError` with
0 network invocations, and the mock tools' invalid time range / level
leave the loader uninvoked. -/
theorem validation_never_reaches_network_witness :
    (BaseTool.call
        (fun p => ExchangeRateTool.validate_input p.1 p.2.1 p.2.2)
        (fun _ => (.ok .null, 1)) (.str "US", .none, .none) =
      (.error (.validation "base_currency must be a 3-letter currency code"),
        0) ∧
      MCPErr.isValidationError
        (.validation "base_currency must be a 3-letter currency code") =
        true) ∧
    BaseTool.call DictionaryTool.validate_input (fun _ => (.ok .null, 1))
        (.str "") = (.error (.validation "word parameter is required"), 0) ∧
    BaseTool.call WeatherTool.validate_input (fun _ => (.ok .null, 1))
        .none = (.error (.validation "location parameter is required"), 0) ∧
    BaseTool.call IPInfoTool.validate_input (fun _ => (.ok .null, 1))
        (.str "1.2.3") =
      (.error (.validation "Invalid IP address format: 1.2.3"), 0) ∧
    (InterfaceLogsTool.execute "all" (-1) none (.ok (.obj []))).2 = 0 ∧
    (ApplicationLogsTool.execute "all" 0 "TRACE" none (.ok (.obj []))
      ApplicationLogsTool.demoEnv).2 = 0 :=
  ⟨validation_never_reaches_network.1 _ (.str "US") .none .none _ rfl,
    validation_never_reaches_network.2.1 _ (.str "") _ rfl,
    validation_never_reaches_network.2.2.1 _ .none _ rfl,
    validation_never_reaches_network.2.2.2.1 _ (.str "1.2.3") _ (by decide),
    validation_never_reaches_network.2.2.2.2.1 "all" (-1) none
      (.ok (.obj [])) (by decide),
    validation_never_reaches_network.2.2.2.2.2 "all" 0 "TRACE" none
      (.ok (.obj [])) ApplicationLogsTool.demoEnv (.inr (by decide))⟩

/-- **C6.** When `target_currency` is given (non-empty) and present in the
returned rate mapping, the exchange-rate result's conversion object is
exactly `from`/`to` (upper-cased), the looked-up `rate`, `amount`
(defaulting to 1 when omitted) and `result = amount * rate`. -/
theorem exchange_conversion (base t : String) (amount : Option Rat)
    (data rates : List (String × Jv)) (r : Rat)
    (hres : jvEqStr ((jvLookup data "result").getD .null) "error" = false)
    (hrates : jvLookup data "rates" = some (.obj rates))
    (ht : t ≠ "")
    (hr : jvLookup rates (pyUpper t) = some (.num r)) :
    ExchangeRateTool.execute base (some t) amount (.ok (.obj data)) =
      .ok (.obj [("base_currency",
          (jvLookup data "base_code").getD (.str (pyUpper base))),
        ("last_update",
          (jvLookup data "time_last_update_utc").getD (.str "")),
        ("next_update",
          (jvLookup data "time_next_update_utc").getD (.str "")),
        ("conversion", .obj [("from", .str (pyUpper base)),
          ("to", .str (pyUpper t)), ("rate", .num r),
          ("amount", .num (amount.getD 1)),
          ("result", .num (amount.getD 1 * r))])]) := by
  have hcontains : pyContainsStr (pyUpper t) (.obj rates) = .ok true := by
    simp [pyContainsStr, hr]
  have hsub : pySubscriptKey (.obj rates) (pyUpper t) = .ok (.num r) := by
    simp [pySubscriptKey, hr]
  simp [ExchangeRateTool.execute, ExchangeRateTool.liftPy, pyGet, pyGetD,
    hres, hrates, ht, hcontains, hsub, pyMulNum, Bind.bind, Except.bind,
    pure, Except.pure]

/-- Witness for C6: with upstream rates containing EUR at 0.8423,
converting 100 USD to EUR yields `conversion.result = 84.23`. -/
theorem exchange_conversion_witness :
    ExchangeRateTool.execute "USD" (some "EUR") (some 100)
        (.ok (.obj [("rates", .obj [("EUR", .num (8423/10000))])])) =
      .ok (.obj [("base_currency", .str "USD"), ("last_update", .str ""),
        ("next_update", .str ""),
        ("conversion", .obj [("from", .str "USD"), ("to", .str "EUR"),
          ("rate", .num (8423/10000)), ("amount", .num 100),
          ("result", .num (8423/100))])]) := by
  have h := exchange_conversion "USD" "EUR" (some 100)
    [("rates", .obj [("EUR", .num (8423/10000))])]
    [("EUR", .num (8423/10000))] (8423/10000) rfl rfl (by decide) rfl
  rw [show ((some (100 : Rat)).getD 1 * (8423/10000) : Rat) = 8423/100 by
    norm_num] at h
  exact h
